import Mathlib

/-!
Shallow embedding of the invoice printing service (`printer_service.py`).

Decimal quantities (`quantity`, `price`, `subtotal`, `discount`, `total`)
are modelled as rationals; the 2-decimal fixed-point rendering of the
2-decimal format specifier of the source (`:.2f`) is `fmt2` below.  The printer device is
modelled by its observable behaviour: for each vendor-table entry, whether
an exclusive open succeeds, fails with the not-present condition, or
raises some other connection error; for an opened device, at which
directive (if any) issuing raises a transport error, and whether closing
the handle raises.  An outcome records the value returned (or the
exception propagated), the directives issued to the device, and how many
times the close of the handle was invoked.
-/

namespace Printer

/-- Alignment attribute passed to the style directive. -/
inductive Align where
  | left
  | center
  deriving DecidableEq, Repr

/-- One atomic print directive, mirroring the calls made on the device
handle: `set` (style, with only the keyword arguments actually supplied),
`text`, the two image blits (carrying their payloads), and `cut`. -/
inductive Directive where
  | set (align : Option Align) (bold : Option Bool)
  | text (s : String)
  | imageBarcode (payload : String)
  | imageQR (payload : String)
  | cut
  deriving DecidableEq, Repr

/-- The default company profile record (the source field names are kept). -/
structure CompanyProfile where
  name : String
  phones : List String
  address : String
  gstin : String
  website : String
  deriving DecidableEq, Repr

/-- The default company profile of the source CONFIG dictionary. -/
def default_company : CompanyProfile :=
  { name := "STAGMENFASHION"
    phones := ["+917736444674", "+918943888200"]
    address := "Kondotty"
    gstin := "32MMRPS3804DIZS"
    website := "https://stagmenfashion.com" }

/-- The static vendor identity table of the source CONFIG dictionary,
in priority order (Bixolon, Epson, Prolific). -/
def printer_vendors : List (Nat × Nat) :=
  [(0x0483, 0x5743), (0x04b8, 0x0202), (0x067b, 0x2305)]

/-- One invoice line item: `{name, quantity, price}`. -/
structure Item where
  name : String
  quantity : ℚ
  price : ℚ
  deriving DecidableEq, Repr

/-- An invoice whose required fields are present (the shape `print_invoice`
is invoked with, after the required-field check of `handle_print`).  Optional
fields are `Option`s; `none` models absence of the key. -/
structure Invoice where
  company_name : Option String := none
  phone_numbers : Option (List String) := none
  address : Option String := none
  gstin : Option String := none
  website_url : Option String := none
  invoice_number : String
  invoice_date : String
  invoice_time : Option String := none
  customer_name : String
  items : List Item
  subtotal : ℚ
  discount : Option ℚ := none
  total : ℚ
  deriving DecidableEq, Repr

/-- Round a rational to a whole number of hundredths, as the `:.2f`
format does (ties of the binary floats of the source are not representable
exactly; `round` resolves the half-way case upward). -/
def cents (q : ℚ) : ℤ := Rat.floor (q * 100 + 1 / 2)

/-- Render a rational with exactly two decimal digits, as `:.2f` does. -/
def fmt2 (q : ℚ) : String :=
  let c := cents q
  let sign := if c < 0 then "-" else ""
  let a := c.natAbs
  let frac := a % 100
  sign ++ toString (a / 100) ++ "." ++
    (if frac < 10 then "0" else "") ++ toString frac

/-- Pad a string on the left with spaces to width `w` (the `:>w` format);
no truncation when already wider. -/
def padLeft (w : Nat) (s : String) : String :=
  String.mk (List.replicate (w - s.length) ' ') ++ s

/-- Pad a string on the right with spaces to width `w` (the `:<w` format);
no truncation when already wider. -/
def padRight (w : Nat) (s : String) : String :=
  s ++ String.mk (List.replicate (w - s.length) ' ')

/-- Split a character list into consecutive chunks of (at most) 20
characters, as the slice comprehension
`[name[i:i+20] for i in range(0, len(name), 20)]` does. -/
def chunk20 : List Char → List (List Char)
  | [] => []
  | c :: cs =>
    ((c :: cs).take 20) :: chunk20 ((c :: cs).drop 20)
  termination_by l => l.length
  decreasing_by simp [List.length_drop]; omega

/-- The 20-character chunks of an item name, as strings. -/
def nameChunks (s : String) : List String :=
  (chunk20 s.data).map String.mk

/-- The first row of an item: name chunk left-aligned in 20, quantity
right-aligned in 4, price right-aligned in 8, and quantity × price
right-aligned in 8, each with 2 decimals (source line 141). -/
def itemFirstRow (it : Item) (part : String) : Directive :=
  .text (padRight 20 part ++ padLeft 4 (fmt2 it.quantity) ++
    padLeft 8 (fmt2 it.price) ++ padLeft 8 (fmt2 (it.quantity * it.price)) ++ "\n")

/-- A continuation row of an item: the name chunk alone, left-aligned in
20 columns (source line 143). -/
def itemContRow (part : String) : Directive :=
  .text (padRight 20 part ++ "\n")

/-- The rows the item loop (source lines 137-143) emits for one item:
the chunk at index 0 carries the numeric columns, every later chunk a
bare name row.  An empty name yields no chunks and hence no rows. -/
def itemRows (it : Item) : List Directive :=
  match nameChunks it.name with
  | [] => []
  | p :: rest => itemFirstRow it p :: rest.map itemContRow

/-- The 32-column divider rule. -/
def divider : Directive := .text (String.mk (List.replicate 32 '-') ++ "\n")

/-- The fixed terms-and-conditions block (source lines 159-164). -/
def termsLines : List String :=
  ["* NO REFUND.",
   "* Returns accepted within 7 days with receipt.",
   "* No Product Will Be Replaced Without Bill.",
   "* Please Check Your Bill Before Leaving The Shop."]

/-- The time segment (source lines 126-127): the source guards the line
with a Python truthiness test on the optional time value, so an absent key and
an empty string both skip the line. -/
def timeSeg : Option String → List Directive
  | some t => if t = "" then [] else [.text ("Time: " ++ t ++ "\n")]
  | none => []

/-- The full directive sequence the body of `print_invoice`
(source lines 106-194) issues for an invoice, in source order. -/
def renderInvoice (inv : Invoice) : List Directive :=
  [Directive.set (some .center) (some true),
   .text ((inv.company_name.getD default_company.name) ++ "\n"),
   .set none (some false)]
  ++ (inv.phone_numbers.getD default_company.phones).map (fun n => Directive.text (n ++ "\n"))
  ++ [Directive.text ((inv.address.getD default_company.address) ++ "\n"),
      .text ("GSTIN: " ++ (inv.gstin.getD default_company.gstin) ++ "\n"),
      divider,
      .set (some .left) none,
      .text ("Invoice #: " ++ inv.invoice_number ++ "\n"),
      .text ("Date: " ++ inv.invoice_date ++ "\n")]
  ++ timeSeg inv.invoice_time
  ++ [Directive.text ("Customer: " ++ inv.customer_name ++ "\n"),
      divider,
      .text (padRight 20 "Item" ++ padLeft 4 "Qty" ++ padLeft 8 "Price" ++ padLeft 8 "Total" ++ "\n")]
  ++ inv.items.flatMap itemRows
  ++ [divider,
      .text (padRight 20 "Subtotal:" ++ padLeft 12 (fmt2 inv.subtotal) ++ "\n"),
      .text (padRight 20 "Discount:" ++ padLeft 12 (fmt2 (inv.discount.getD 0)) ++ "\n"),
      .set none (some true),
      .text (padRight 20 "GRAND TOTAL:" ++ padLeft 12 (fmt2 inv.total) ++ "\n"),
      .set none (some false),
      divider]
  ++ termsLines.map (fun t => Directive.text (t ++ "\n"))
  ++ [divider,
      .set (some .center) none,
      .text (inv.invoice_number ++ "\n"),
      divider,
      .imageBarcode inv.invoice_number,
      .text "\n",
      .imageQR (inv.website_url.getD default_company.website),
      .text "\n",
      .set (some .center) none,
      .text "ENJOY FROM EVERYWHERE\n",
      .text "THANK YOU FOR WATCHING!\n",
      .cut]

/-- Behaviour of a successfully opened device handle: `failAt = some k`
means issuing the `k`-th directive (0-based) raises a transport error with
message `failMsg`; `closeMsg = some m` means `close()` itself raises. -/
structure Dev where
  failAt : Option Nat := none
  failMsg : String := ""
  closeMsg : Option String := none
  deriving DecidableEq, Repr

/-- Behaviour of one `Usb(idVendor, idProduct)` construction attempt. -/
inductive OpenOutcome where
  | found (d : Dev)
  | notFound
  | raiseOther (msg : String)
  deriving DecidableEq, Repr

/-- Result of `detect_printer`: a handle, the `USBNotFoundError` it raises
after exhausting the table, or some other connection error propagating. -/
inductive DetectResult where
  | found (d : Dev)
  | notFoundErr (msg : String)
  | raised (msg : String)
  deriving DecidableEq, Repr

/-- The loop of `detect_printer` (source lines 63-71) over a suffix of the
vendor table, also recording which entries were attempted: a successful
open returns the handle; `USBNotFoundError` moves to the next entry; any
other error propagates.  An exhausted table raises
`USBNotFoundError("No supported USB printer found")`. -/
def detectGo (openOf : Nat × Nat → OpenOutcome) :
    List (Nat × Nat) → DetectResult × List (Nat × Nat)
  | [] => (.notFoundErr "No supported USB printer found", [])
  | v :: rest =>
    match openOf v with
    | .found d => (.found d, [v])
    | .raiseOther m => (.raised m, [v])
    | .notFound =>
      let r := detectGo openOf rest
      (r.1, v :: r.2)

/-- `detect_printer`, as a function of the per-entry open behaviour. -/
def detect_printer (openOf : Nat × Nat → OpenOutcome) : DetectResult :=
  (detectGo openOf printer_vendors).1

/-- The entries `detect_printer` attempts to open, in order. -/
def detectAttempts (openOf : Nat × Nat → OpenOutcome) : List (Nat × Nat) :=
  (detectGo openOf printer_vendors).2

deriving instance DecidableEq for Except

/-- Observable outcome of one `print_invoice` call: the returned
`(success, message)` pair or the exception propagating out of it, the
directives actually issued to the device, and the number of times the
close method of the handle was invoked. -/
structure Outcome where
  result : Except String (Bool × String)
  issued : List Directive
  closes : Nat
  deriving DecidableEq, Repr

/-- `print_invoice` (source lines 97-201).  A `USBNotFoundError` from
detection is caught and returned as `(False, message)`; any other
detection error propagates (only `USBNotFoundError` is caught there).
With a handle, the body issues directives until a transport error, if
any, which the `except Exception` turns into `(False, message)`; the
`finally` calls `close()` exactly once on every such path, and a `close()`
error propagates in place of the in-flight return value (the bare
`finally` neither logs nor suppresses it). -/
def print_invoice (inv : Invoice) (openOf : Nat × Nat → OpenOutcome) : Outcome :=
  match detect_printer openOf with
  | .notFoundErr m => { result := .ok (false, m), issued := [], closes := 0 }
  | .raised m => { result := .error m, issued := [], closes := 0 }
  | .found dev =>
    let dirs := renderInvoice inv
    let issued := match dev.failAt with
      | some k => if k < dirs.length then dirs.take k else dirs
      | none => dirs
    let phase : Bool × String := match dev.failAt with
      | some k =>
        if k < dirs.length then (false, dev.failMsg)
        else (true, "Invoice printed successfully")
      | none => (true, "Invoice printed successfully")
    match dev.closeMsg with
    | none => { result := .ok phase, issued := issued, closes := 1 }
    | some cm => { result := .error cm, issued := issued, closes := 1 }

/-- The raw request body: every key optional, as in a JSON dict. -/
structure RawData where
  company_name : Option String := none
  phone_numbers : Option (List String) := none
  address : Option String := none
  gstin : Option String := none
  website_url : Option String := none
  invoice_number : Option String := none
  invoice_date : Option String := none
  invoice_time : Option String := none
  customer_name : Option String := none
  items : Option (List Item) := none
  subtotal : Option ℚ := none
  discount : Option ℚ := none
  total : Option ℚ := none
  deriving DecidableEq, Repr

/-- The `required_fields` list of `handle_print` (source lines 213-216). -/
def required_fields : List String :=
  ["invoice_number", "invoice_date", "customer_name", "items", "subtotal", "total"]

/-- Whether a required key is present in the request dict. -/
def hasKey (d : RawData) : String → Bool
  | "invoice_number" => d.invoice_number.isSome
  | "invoice_date" => d.invoice_date.isSome
  | "customer_name" => d.customer_name.isSome
  | "items" => d.items.isSome
  | "subtotal" => d.subtotal.isSome
  | "total" => d.total.isSome
  | _ => true

/-- The first required field the loop at source lines 218-220 finds
missing, if any. -/
def firstMissing (d : RawData) : Option String :=
  required_fields.find? (fun f => !hasKey d f)

/-- The invoice `print_invoice` reads from a request that passed the
required-field check (on such requests every `getD` below is the
identity). -/
def toInvoice (d : RawData) : Invoice :=
  { company_name := d.company_name
    phone_numbers := d.phone_numbers
    address := d.address
    gstin := d.gstin
    website_url := d.website_url
    invoice_number := d.invoice_number.getD ""
    invoice_date := d.invoice_date.getD ""
    invoice_time := d.invoice_time
    customer_name := d.customer_name.getD ""
    items := d.items.getD []
    subtotal := d.subtotal.getD 0
    discount := d.discount
    total := d.total.getD 0 }

/-- `handle_print` after authentication and JSON checks (source lines
212-224): the first component is the JSON response `(success, message)`
with its HTTP status (or the exception `print_invoice` let propagate),
the second the `print_invoice` outcome — `none` when the pipeline was
never invoked (no device-locate attempt, no rendering). -/
def handle_print (d : RawData) (openOf : Nat × Nat → OpenOutcome) :
    Except String (Bool × String × Nat) × Option Outcome :=
  match firstMissing d with
  | some f => (.ok (false, "Missing required field: " ++ f, 400), none)
  | none =>
    let out := print_invoice (toInvoice d) openOf
    (match out.result with
     | .ok (s, m) => .ok (s, m, if s then 200 else 500)
     | .error m => .error m, some out)


/-- The payloads of the QR image directives of a sequence, in order. -/
def qrPayloads (ds : List Directive) : List String :=
  ds.filterMap fun d =>
    match d with
    | .imageQR u => some u
    | _ => none

/-! ## Concrete fixtures used by witnesses and counterexamples -/

/-- A minimal invoice with all required fields and no items. -/
def sampleInvoice : Invoice :=
  { invoice_number := "INV-1001", invoice_date := "2024-01-01",
    customer_name := "Jane", items := [], subtotal := 1000, total := 1000 }

/-- The end-to-end invoice of the spec: one Shirt item, quantity 2 at
500.00, subtotal and total 1000.00, no optional overrides. -/
def c8Invoice : Invoice :=
  { invoice_number := "INV-1001", invoice_date := "2024-01-01",
    customer_name := "Jane",
    items := [{ name := "Shirt", quantity := 2, price := 500 }],
    subtotal := 1000, total := 1000 }

/-- An item whose 25-character name needs two rows. -/
def longNameItem : Item :=
  { name := "ABCDEFGHIJKLMNOPQRSTUVWXY", quantity := 2, price := 500 }

/-- Device behaviour: the first vendor entry opens a fully working
device. -/
def benignOpen : Nat × Nat → OpenOutcome :=
  fun v => if v = (0x0483, 0x5743) then OpenOutcome.found {} else .notFound

/-- Device behaviour: the first vendor entry opens a device that raises a
transport error on its 30th directive (the barcode image blit of an
invoice without items). -/
def blitFailOpen : Nat × Nat → OpenOutcome :=
  fun v =>
    if v = (0x0483, 0x5743) then
      OpenOutcome.found { failAt := some 29, failMsg := "transport error on image blit" }
    else .notFound

/-- Device behaviour: a working device whose close raises. -/
def closeFailOpen : Nat × Nat → OpenOutcome :=
  fun v =>
    if v = (0x0483, 0x5743) then OpenOutcome.found { closeMsg := some "close failed" }
    else .notFound

/-- Device behaviour: opening the first vendor entry raises a connection
error that is not the not-present condition. -/
def busyOpen : Nat × Nat → OpenOutcome :=
  fun v => if v = (0x0483, 0x5743) then OpenOutcome.raiseOther "device busy" else .notFound

/-- Device behaviour: no vendor entry is present. -/
def allAbsentOpen : Nat × Nat → OpenOutcome := fun _ => OpenOutcome.notFound

/-- Device behaviour: the first entry is absent, opening the second
raises a non-not-present connection error. -/
def busySecondOpen : Nat × Nat → OpenOutcome :=
  fun v => if v = (0x04b8, 0x0202) then OpenOutcome.raiseOther "device busy" else .notFound

/-- A request body whose customer name key is missing. -/
def rawNoCustomer : RawData :=
  { invoice_number := some "INV-1001", invoice_date := some "2024-01-01",
    items := some [], subtotal := some 1000, total := some 1000 }

/-! ## Helper lemmas about the chunking of item names -/

theorem chunk20_nil : chunk20 [] = [] := by
  simp [chunk20]

theorem chunk20_cons (c : Char) (cs : List Char) :
    chunk20 (c :: cs) = ((c :: cs).take 20) :: chunk20 ((c :: cs).drop 20) := by
  rw [chunk20]

/-- The number of chunks is the length of the list divided by 20,
rounded up. -/
theorem chunk20_length (l : List Char) :
    (chunk20 l).length = (l.length + 19) / 20 := by
  induction l using chunk20.induct with
  | case1 => simp [chunk20_nil]
  | case2 c cs ih =>
    rw [chunk20_cons, List.length_cons, ih]
    simp only [List.length_drop, List.length_cons]
    omega

/-- Concatenating the chunks gives back the original list. -/
theorem chunk20_join (l : List Char) : (chunk20 l).flatten = l := by
  induction l using chunk20.induct with
  | case1 => simp [chunk20_nil]
  | case2 c cs ih =>
    rw [chunk20_cons, List.flatten_cons, ih, List.take_append_drop]

/-- Every chunk is nonempty and holds at most 20 characters. -/
theorem chunk20_mem (l : List Char) (p : List Char) (hp : p ∈ chunk20 l) :
    p ≠ [] ∧ p.length ≤ 20 := by
  induction l using chunk20.induct with
  | case1 => simp [chunk20_nil] at hp
  | case2 c cs ih =>
    rw [chunk20_cons] at hp
    rcases List.mem_cons.mp hp with h | h
    · subst h
      constructor
      · simp
      · simp
    · exact ih h

/-! ## C1: wrapping of long item names -/

/-- A string built from a character list has that length. -/
theorem length_mk (l : List Char) : (String.mk l).length = l.length := rfl

/-- C1: for an item whose name has length L exceeding 20, the item loop
produces one row per 20-character chunk — ceil(L/20) rows in all, of
which at least two — the chunks concatenating back to the name; the first
row carries the name chunk left-aligned in 20 columns, the quantity with
2 decimals right-aligned in 4, the unit price with 2 decimals
right-aligned in 8, and quantity times price with 2 decimals
right-aligned in 8; every later row is just its chunk padded to 20
columns with no numeric columns. -/
theorem c1_long_name_wrap (it : Item) (h : 20 < it.name.length) :
    ∃ p0 rest, nameChunks it.name = p0 :: rest ∧
      rest ≠ [] ∧
      p0.length = 20 ∧
      (∀ p ∈ p0 :: rest, 0 < p.length ∧ p.length ≤ 20) ∧
      ((p0 :: rest).map String.data).flatten = it.name.data ∧
      itemRows it =
        Directive.text (padRight 20 p0 ++ padLeft 4 (fmt2 it.quantity) ++
            padLeft 8 (fmt2 it.price) ++ padLeft 8 (fmt2 (it.quantity * it.price)) ++ "\n")
          :: rest.map (fun p => Directive.text (padRight 20 p ++ "\n")) ∧
      (itemRows it).length = (it.name.length + 19) / 20 := by
  have hlen : it.name.data.length = it.name.length := rfl
  obtain ⟨c, cs, hdata⟩ : ∃ c cs, it.name.data = c :: cs := by
    cases hd : it.name.data with
    | nil => rw [hd] at hlen; simp at hlen; omega
    | cons c cs => exact ⟨c, cs, rfl⟩
  have hchunks : chunk20 it.name.data =
      ((c :: cs).take 20) :: chunk20 ((c :: cs).drop 20) := by
    rw [hdata, chunk20_cons]
  have hdroplen : ((c :: cs).drop 20).length = it.name.length - 20 := by
    rw [List.length_drop, ← hlen, hdata]
  obtain ⟨d, ds, hdrop⟩ : ∃ d ds, (c :: cs).drop 20 = d :: ds := by
    cases hd : (c :: cs).drop 20 with
    | nil => rw [hd] at hdroplen; simp at hdroplen; omega
    | cons d ds => exact ⟨d, ds, rfl⟩
  refine ⟨String.mk ((c :: cs).take 20),
    (chunk20 ((c :: cs).drop 20)).map String.mk, ?_, ?_, ?_, ?_, ?_, ?_, ?_⟩
  · rw [nameChunks, hchunks, List.map_cons]
  · rw [hdrop, chunk20_cons]
    simp
  · rw [length_mk, List.length_take]
    have h2 : 20 < (c :: cs).length := by rw [← hdata, hlen]; exact h
    omega
  · intro p hp
    rcases List.mem_cons.mp hp with hp | hp
    · subst hp
      have := chunk20_mem it.name.data (String.mk ((c :: cs).take 20)).data
        (by rw [hchunks]; exact List.mem_cons_self _ _)
      rcases this with ⟨hne, hle⟩
      constructor
      · rw [length_mk]
        cases hq : ((c :: cs).take 20) with
        | nil => exact absurd hq hne
        | cons x xs => simp [hq]
      · rw [length_mk]; exact hle
    · rcases List.mem_map.mp hp with ⟨q, hq, hqp⟩
      have := chunk20_mem it.name.data q (by rw [hchunks]; exact List.mem_cons_of_mem _ hq)
      rcases this with ⟨hne, hle⟩
      subst hqp
      constructor
      · rw [length_mk]
        cases hq2 : q with
        | nil => exact absurd hq2 hne
        | cons x xs => simp [hq2]
      · rw [length_mk]; exact hle
  · have : ∀ ps : List (List Char), (ps.map String.mk).map String.data = ps := by
      intro ps
      rw [List.map_map]
      exact List.map_id ps
    rw [← List.map_cons String.mk ((c :: cs).take 20) (chunk20 ((c :: cs).drop 20)),
      this, ← hchunks, chunk20_join]
  · rw [itemRows, nameChunks, hchunks]
    simp [itemFirstRow, itemContRow]
  · have hrows : (itemRows it).length = (nameChunks it.name).length := by
      rw [itemRows]
      cases hn : nameChunks it.name with
      | nil => simp
      | cons p rest => simp
    rw [hrows, nameChunks, List.length_map, chunk20_length, hlen]

/-- Witness for C1 at a concrete 25-character item name. -/
theorem c1_long_name_wrap_witness :
    20 < longNameItem.name.length ∧
    (∃ p0 rest, nameChunks longNameItem.name = p0 :: rest ∧
      rest ≠ [] ∧
      p0.length = 20 ∧
      (∀ p ∈ p0 :: rest, 0 < p.length ∧ p.length ≤ 20) ∧
      ((p0 :: rest).map String.data).flatten = longNameItem.name.data ∧
      itemRows longNameItem =
        Directive.text (padRight 20 p0 ++ padLeft 4 (fmt2 longNameItem.quantity) ++
            padLeft 8 (fmt2 longNameItem.price) ++
            padLeft 8 (fmt2 (longNameItem.quantity * longNameItem.price)) ++ "\n")
          :: rest.map (fun p => Directive.text (padRight 20 p ++ "\n")) ∧
      (itemRows longNameItem).length = (longNameItem.name.length + 19) / 20) :=
  ⟨by decide, c1_long_name_wrap longNameItem (by decide)⟩

/-! ## C2-C5: device detection and the print sequencer -/

/-- C2: when the device is located and some directive raises mid-job
(any index into the directive sequence, image blits included), the close
of the handle still runs exactly once, and — provided the close itself
does not raise — the failure is reported to the caller as a returned
pair, not an exception. -/
theorem c2_midjob_release (inv : Invoice) (openOf : Nat × Nat → OpenOutcome)
    (dev : Dev) (k : Nat)
    (hdet : detect_printer openOf = .found dev)
    (hfail : dev.failAt = some k) (hk : k < (renderInvoice inv).length) :
    (print_invoice inv openOf).closes = 1 ∧
    (dev.closeMsg = none →
      (print_invoice inv openOf).result = .ok (false, dev.failMsg)) := by
  constructor
  · cases hcm : dev.closeMsg <;> simp [print_invoice, hdet, hfail, hk, hcm]
  · intro hclose
    simp [print_invoice, hdet, hfail, hk, hclose]

set_option maxRecDepth 8000 in
/-- Witness for C2: a transport error on the barcode image blit. -/
theorem c2_midjob_release_witness :
    (print_invoice sampleInvoice blitFailOpen).closes = 1 ∧
    (print_invoice sampleInvoice blitFailOpen).result =
      .ok (false, "transport error on image blit") :=
  ⟨(c2_midjob_release sampleInvoice blitFailOpen
      { failAt := some 29, failMsg := "transport error on image blit" } 29
      (by decide) (by decide) (by decide)).1,
   (c2_midjob_release sampleInvoice blitFailOpen
      { failAt := some 29, failMsg := "transport error on image blit" } 29
      (by decide) (by decide) (by decide)).2 (by decide)⟩

set_option maxRecDepth 8000 in
/-- Counterexample to C3: with a device whose close raises, the close
error replaces the outcome of the print phase — the very same job with a
non-raising close returns success, but with the raising close the pair is
not returned at all; the error propagates. -/
theorem c3_counterexample :
    (print_invoice sampleInvoice closeFailOpen).result = .error "close failed" ∧
    (print_invoice sampleInvoice benignOpen).result =
      .ok (true, "Invoice printed successfully") := by
  decide

/-- C3 as amended: when the close of the device handle raises, the close
is still invoked exactly once, but its error is neither logged nor
suppressed — it propagates out of the job, replacing the pair the print
phase had determined. -/
theorem c3_close_error_propagates (inv : Invoice)
    (openOf : Nat × Nat → OpenOutcome) (dev : Dev) (cm : String)
    (hdet : detect_printer openOf = .found dev)
    (hc : dev.closeMsg = some cm) :
    (print_invoice inv openOf).result = .error cm ∧
    (print_invoice inv openOf).closes = 1 := by
  simp [print_invoice, hdet, hc]

set_option maxRecDepth 8000 in
/-- Witness for the amended C3. -/
theorem c3_close_error_propagates_witness :
    (print_invoice sampleInvoice closeFailOpen).result = .error "close failed" ∧
    (print_invoice sampleInvoice closeFailOpen).closes = 1 :=
  c3_close_error_propagates sampleInvoice closeFailOpen
    { closeMsg := some "close failed" } "close failed" (by decide) (by decide)

set_option maxRecDepth 8000 in
/-- Counterexample to C4: a connection error other than not-present while
opening the device propagates out of the pipeline as an exception — no
pair is returned. -/
theorem c4_counterexample :
    (print_invoice sampleInvoice busyOpen).result = .error "device busy" := by
  decide

/-- C4 as amended: the pipeline returns a pair whenever detection ends in
the not-present error, and whenever a device is located and its close
does not raise (whatever mid-job failures occur); a detection error other
than not-present, and a close error, propagate as exceptions instead. -/
theorem c4_pair_or_propagate (inv : Invoice) (openOf : Nat × Nat → OpenOutcome) :
    (∀ m, detect_printer openOf = .notFoundErr m →
      (print_invoice inv openOf).result = .ok (false, m)) ∧
    (∀ dev, detect_printer openOf = .found dev → dev.closeMsg = none →
      ∃ b m, (print_invoice inv openOf).result = .ok (b, m)) := by
  constructor
  · intro m hm
    simp [print_invoice, hm]
  · intro dev hdev hcm
    cases hfa : dev.failAt with
    | none =>
      exact ⟨true, "Invoice printed successfully", by simp [print_invoice, hdev, hcm, hfa]⟩
    | some k =>
      by_cases hk : k < (renderInvoice inv).length
      · exact ⟨false, dev.failMsg, by simp [print_invoice, hdev, hcm, hfa, hk]⟩
      · exact ⟨true, "Invoice printed successfully", by simp [print_invoice, hdev, hcm, hfa, hk]⟩

set_option maxRecDepth 8000 in
/-- Witness for the amended C4. -/
theorem c4_pair_or_propagate_witness :
    (print_invoice sampleInvoice allAbsentOpen).result =
      .ok (false, "No supported USB printer found") :=
  (c4_pair_or_propagate sampleInvoice allAbsentOpen).1
    "No supported USB printer found" (by decide)

/-- When every entry of a table suffix fails as not-present, the
detection loop walks exactly that suffix in order and raises the
exhausted-search error. -/
theorem detectGo_all_absent (openOf : Nat × Nat → OpenOutcome)
    (l : List (Nat × Nat)) (h : ∀ v ∈ l, openOf v = OpenOutcome.notFound) :
    detectGo openOf l = (.notFoundErr "No supported USB printer found", l) := by
  induction l with
  | nil => rfl
  | cons v rest ih =>
    have hv := h v (List.mem_cons_self _ _)
    simp [detectGo, hv, ih (fun u hu => h u (List.mem_cons_of_mem _ hu))]

/-- Entries failing as not-present are skipped without affecting the
result of the detection loop. -/
theorem detectGo_skip (openOf : Nat × Nat → OpenOutcome)
    (pre rest : List (Nat × Nat)) (h : ∀ v ∈ pre, openOf v = OpenOutcome.notFound) :
    (detectGo openOf (pre ++ rest)).1 = (detectGo openOf rest).1 := by
  induction pre with
  | nil => rfl
  | cons v p ih =>
    have hv := h v (List.mem_cons_self _ _)
    simp [detectGo, hv, ih (fun u hu => h u (List.mem_cons_of_mem _ hu))]

/-- C5: if every vendor entry fails as not-present, detection makes
exactly one pass over the whole table in priority order and raises the
not-found error naming the exhausted search; the job then returns failure
with that message, no directive is issued and the handle is never closed
(never acquired).  An entry that raises any other connection error after
a prefix of not-present entries propagates that error distinctly — it is
not converted into not-found. -/
theorem c5_exhausted_and_distinct (inv : Invoice) (openOf : Nat × Nat → OpenOutcome) :
    ((∀ v ∈ printer_vendors, openOf v = OpenOutcome.notFound) →
      detect_printer openOf = .notFoundErr "No supported USB printer found" ∧
      detectAttempts openOf = printer_vendors ∧
      (print_invoice inv openOf).result = .ok (false, "No supported USB printer found") ∧
      (print_invoice inv openOf).issued = [] ∧
      (print_invoice inv openOf).closes = 0) ∧
    (∀ pre v post m, printer_vendors = pre ++ v :: post →
      (∀ u ∈ pre, openOf u = OpenOutcome.notFound) →
      openOf v = OpenOutcome.raiseOther m →
      detect_printer openOf = .raised m) := by
  constructor
  · intro h
    have hg := detectGo_all_absent openOf printer_vendors h
    have hd : detect_printer openOf = .notFoundErr "No supported USB printer found" := by
      rw [detect_printer, hg]
    exact ⟨hd, by rw [detectAttempts, hg], by simp [print_invoice, hd],
      by simp [print_invoice, hd], by simp [print_invoice, hd]⟩
  · intro pre v post m htab hpre hv
    rw [detect_printer, htab, detectGo_skip openOf pre (v :: post) hpre]
    simp [detectGo, hv]

set_option maxRecDepth 8000 in
/-- Witness for C5: an empty bench, and a busy second entry after an
absent first one. -/
theorem c5_exhausted_and_distinct_witness :
    (detect_printer allAbsentOpen = .notFoundErr "No supported USB printer found" ∧
      detectAttempts allAbsentOpen = printer_vendors ∧
      (print_invoice sampleInvoice allAbsentOpen).result =
        .ok (false, "No supported USB printer found") ∧
      (print_invoice sampleInvoice allAbsentOpen).issued = [] ∧
      (print_invoice sampleInvoice allAbsentOpen).closes = 0) ∧
    detect_printer busySecondOpen = .raised "device busy" :=
  ⟨(c5_exhausted_and_distinct sampleInvoice allAbsentOpen).1 (by decide),
   (c5_exhausted_and_distinct sampleInvoice busySecondOpen).2
     [(0x0483, 0x5743)] (0x04b8, 0x0202) [(0x067b, 0x2305)] "device busy"
     (by decide) (by decide) (by decide)⟩

/-! ## C6: required-field validation in the request handler -/

/-- C6: when some required field is absent from the request, the handler
returns a 400 validation failure whose message names a field that is
indeed missing (the first one in the fixed check order), and the print
pipeline — device locate and rendering included — is never invoked. -/
theorem c6_missing_field (d : RawData) (openOf : Nat × Nat → OpenOutcome)
    (f : String) (hf : f ∈ required_fields) (hmiss : hasKey d f = false) :
    ∃ g, g ∈ required_fields ∧ hasKey d g = false ∧
      handle_print d openOf =
        (.ok (false, "Missing required field: " ++ g, 400), none) := by
  have hsome : (firstMissing d).isSome := by
    rw [firstMissing, List.find?_isSome]
    exact ⟨f, hf, by simp [hmiss]⟩
  obtain ⟨g, hg⟩ := Option.isSome_iff_exists.mp hsome
  rw [firstMissing] at hg
  have hmem := List.mem_of_find?_eq_some hg
  have hpg := List.find?_some hg
  have hg2 : firstMissing d = some g := by rw [firstMissing]; exact hg
  refine ⟨g, hmem, by simpa using hpg, ?_⟩
  simp [handle_print, hg2]

/-- Witness for C6: a request without a customer name. -/
theorem c6_missing_field_witness :
    "customer_name" ∈ required_fields ∧
    hasKey rawNoCustomer "customer_name" = false ∧
    (∃ g, g ∈ required_fields ∧ hasKey rawNoCustomer g = false ∧
      handle_print rawNoCustomer allAbsentOpen =
        (.ok (false, "Missing required field: " ++ g, 400), none)) :=
  ⟨by decide, by decide,
   c6_missing_field rawNoCustomer allAbsentOpen "customer_name" (by decide) (by decide)⟩

/-! ## C10: items with an empty name vanish from the receipt -/

/-- C10: an item whose name is the empty string contributes no row at
all — its quantity, price and line total are silently omitted — while the
rest of the receipt is unchanged and a successful print result is still
returned. -/
theorem c10_empty_name_item (inv : Invoice) (openOf : Nat × Nat → OpenOutcome)
    (item : Item) (dev : Dev) (hname : item.name = "")
    (hdet : detect_printer openOf = .found dev)
    (hfa : dev.failAt = none) (hcm : dev.closeMsg = none) :
    itemRows item = [] ∧
    renderInvoice { inv with items := inv.items ++ [item] } = renderInvoice inv ∧
    (print_invoice { inv with items := inv.items ++ [item] } openOf).result =
      .ok (true, "Invoice printed successfully") := by
  have h0 : nameChunks item.name = [] := by
    have hd : ("" : String).data = [] := rfl
    rw [hname, nameChunks, hd, chunk20_nil, List.map_nil]
  have hrows : itemRows item = [] := by simp [itemRows, h0]
  refine ⟨hrows, ?_, ?_⟩
  · simp [renderInvoice, hrows]
  · simp [print_invoice, hdet, hfa, hcm]

set_option maxRecDepth 8000 in
/-- Witness for C10 at a concrete empty-named item. -/
theorem c10_empty_name_item_witness :
    itemRows { name := "", quantity := 3, price := 7 } = [] ∧
    renderInvoice { sampleInvoice with
      items := sampleInvoice.items ++ [{ name := "", quantity := 3, price := 7 }] } =
      renderInvoice sampleInvoice ∧
    (print_invoice { sampleInvoice with
      items := sampleInvoice.items ++ [{ name := "", quantity := 3, price := 7 }] }
      benignOpen).result = .ok (true, "Invoice printed successfully") :=
  c10_empty_name_item sampleInvoice benignOpen
    { name := "", quantity := 3, price := 7 } {} (by decide) (by decide) (by decide) (by decide)

/-! ## C8: the end-to-end sample invoice -/

set_option maxRecDepth 8000 in
/-- Counterexample to C8: the row literal quoted by the claim (17 spaces
between the name and the quantity) never appears among the issued
directives — the name column is 20 wide and the quantity column 4 wide,
so only 15 spaces separate them. -/
theorem c8_counterexample :
    Directive.text "Shirt                 2.00  500.00 1000.00\n" ∉
      (print_invoice c8Invoice benignOpen).issued := by
  with_unfolding_all decide

set_option maxRecDepth 8000 in
/-- C8 as amended: the sample invoice prints the Shirt row with the name
left-aligned in 20 columns followed by the three numeric columns (so 15
spaces between name and quantity), the final directive is the paper cut,
and the call returns success. -/
theorem c8_end_to_end :
    (print_invoice c8Invoice benignOpen).result =
      .ok (true, "Invoice printed successfully") ∧
    Directive.text "Shirt               2.00  500.00 1000.00\n" ∈
      (print_invoice c8Invoice benignOpen).issued ∧
    (print_invoice c8Invoice benignOpen).issued.getLast? = some .cut := by
  with_unfolding_all decide

/-! ## C7: field-by-field fallback to the default company profile -/

/-- Item rows never carry a QR image. -/
theorem qrPayloads_itemRows (it : Item) : qrPayloads (itemRows it) = [] := by
  rw [itemRows]
  cases nameChunks it.name with
  | nil => rfl
  | cons p rest =>
    simp [qrPayloads, itemFirstRow, itemContRow, List.filterMap_map]

/-- The whole items block never carries a QR image. -/
theorem qrPayloads_flatMap (items : List Item) :
    qrPayloads (items.flatMap itemRows) = [] := by
  induction items with
  | nil => rfl
  | cons it rest ih =>
    have h1 := qrPayloads_itemRows it
    simp only [qrPayloads, List.flatMap_cons, List.filterMap_append] at *
    rw [h1, ih]
    rfl

/-- Every rendered receipt carries exactly one QR image, and its payload
is the supplied website URL or, failing that, the default website. -/
theorem qrPayloads_render (inv : Invoice) :
    qrPayloads (renderInvoice inv) = [inv.website_url.getD default_company.website] := by
  have hitems := qrPayloads_flatMap inv.items
  simp only [qrPayloads, List.filterMap_append] at hitems ⊢
  rw [renderInvoice]
  simp only [List.filterMap_append, hitems, List.filterMap_cons, List.filterMap_map,
    divider]
  cases inv.invoice_time with
  | none => simp [timeSeg, termsLines]
  | some t =>
    by_cases ht : t = "" <;> simp [timeSeg, ht, termsLines]

/-- C7: with no optional company fields supplied, the company name line,
both phone lines, the address line, the GSTIN line and the QR payload all
come from the default company profile; and the fallback is field by
field — supplying one field replaces exactly its own line (respectively
the QR payload or the phone block) and leaves every other directive
unchanged. -/
theorem c7_company_fallback (inv : Invoice)
    (h1 : inv.company_name = none) (h2 : inv.phone_numbers = none)
    (h3 : inv.address = none) (h4 : inv.gstin = none)
    (h5 : inv.website_url = none) :
    (renderInvoice inv)[1]? = some (.text "STAGMENFASHION\n") ∧
    (renderInvoice inv)[3]? = some (.text "+917736444674\n") ∧
    (renderInvoice inv)[4]? = some (.text "+918943888200\n") ∧
    (renderInvoice inv)[5]? = some (.text "Kondotty\n") ∧
    (renderInvoice inv)[6]? = some (.text "GSTIN: 32MMRPS3804DIZS\n") ∧
    qrPayloads (renderInvoice inv) = ["https://stagmenfashion.com"] ∧
    (∀ n, renderInvoice { inv with company_name := some n } =
      (renderInvoice inv).set 1 (.text (n ++ "\n"))) ∧
    (∀ a, renderInvoice { inv with address := some a } =
      (renderInvoice inv).set 5 (.text (a ++ "\n"))) ∧
    (∀ g, renderInvoice { inv with gstin := some g } =
      (renderInvoice inv).set 6 (.text ("GSTIN: " ++ g ++ "\n"))) ∧
    (∀ ps, renderInvoice { inv with phone_numbers := some ps } =
      (renderInvoice inv).take 3 ++ ps.map (fun n => Directive.text (n ++ "\n"))
        ++ (renderInvoice inv).drop 5) ∧
    (∀ u, qrPayloads (renderInvoice { inv with website_url := some u }) = [u]) := by
  refine ⟨?_, ?_, ?_, ?_, ?_, ?_, ?_, ?_, ?_, ?_, ?_⟩
  · simp [renderInvoice, h1, default_company]
  · simp [renderInvoice, h2, default_company]
  · simp [renderInvoice, h2, default_company]
  · simp [renderInvoice, h2, h3, default_company]
  · simp [renderInvoice, h2, h4, default_company]
  · rw [qrPayloads_render, h5]; rfl
  · intro n
    simp [renderInvoice, h2, default_company, List.set]
  · intro a
    simp [renderInvoice, h2, default_company, List.set]
  · intro g
    simp [renderInvoice, h2, default_company, List.set]
  · intro ps
    simp [renderInvoice, h2, default_company]
  · intro u
    rw [qrPayloads_render]; rfl

/-- Witness for C7 at the sample invoice, which has no optional company
fields. -/
theorem c7_company_fallback_witness :
    (renderInvoice sampleInvoice)[1]? = some (.text "STAGMENFASHION\n") ∧
    (renderInvoice sampleInvoice)[3]? = some (.text "+917736444674\n") ∧
    (renderInvoice sampleInvoice)[4]? = some (.text "+918943888200\n") ∧
    (renderInvoice sampleInvoice)[5]? = some (.text "Kondotty\n") ∧
    (renderInvoice sampleInvoice)[6]? = some (.text "GSTIN: 32MMRPS3804DIZS\n") ∧
    qrPayloads (renderInvoice sampleInvoice) = ["https://stagmenfashion.com"] ∧
    (∀ n, renderInvoice { sampleInvoice with company_name := some n } =
      (renderInvoice sampleInvoice).set 1 (.text (n ++ "\n"))) ∧
    (∀ a, renderInvoice { sampleInvoice with address := some a } =
      (renderInvoice sampleInvoice).set 5 (.text (a ++ "\n"))) ∧
    (∀ g, renderInvoice { sampleInvoice with gstin := some g } =
      (renderInvoice sampleInvoice).set 6 (.text ("GSTIN: " ++ g ++ "\n"))) ∧
    (∀ ps, renderInvoice { sampleInvoice with phone_numbers := some ps } =
      (renderInvoice sampleInvoice).take 3
        ++ ps.map (fun n => Directive.text (n ++ "\n"))
        ++ (renderInvoice sampleInvoice).drop 5) ∧
    (∀ u, qrPayloads (renderInvoice { sampleInvoice with website_url := some u }) = [u]) :=
  c7_company_fallback sampleInvoice rfl rfl rfl rfl rfl

/-! ## C9: the Time line is a truthiness test, not a presence test -/

set_option maxRecDepth 8000 in
/-- Counterexample to C9: with the time field present but equal to the
empty string, the Time line is not emitted. -/
theorem c9_counterexample :
    Directive.text "Time: \n" ∉
      renderInvoice { sampleInvoice with invoice_time := some "" } := by
  decide

/-- C9 as amended: the Time line is emitted iff the time field is present
with a non-empty value — an empty string is treated like an absent key
(Python truthiness) — and in either case every other directive, the
Invoice number, Date and Customer lines included, is unchanged: the
non-empty time inserts exactly one line between the Date line and the
Customer line. -/
theorem c9_time_truthiness (inv : Invoice) :
    renderInvoice { inv with invoice_time := some "" } =
      renderInvoice { inv with invoice_time := none } ∧
    (∀ t, t ≠ "" → ∃ pre post,
      renderInvoice { inv with invoice_time := none } = pre ++ post ∧
      renderInvoice { inv with invoice_time := some t } =
        pre ++ Directive.text ("Time: " ++ t ++ "\n") :: post ∧
      pre.getLast? = some (.text ("Date: " ++ inv.invoice_date ++ "\n")) ∧
      post.head? = some (.text ("Customer: " ++ inv.customer_name ++ "\n"))) := by
  constructor
  · simp [renderInvoice, timeSeg]
  · intro t ht
    refine ⟨([Directive.set (some .center) (some true),
        .text ((inv.company_name.getD default_company.name) ++ "\n"),
        .set none (some false)]
      ++ (inv.phone_numbers.getD default_company.phones).map
          (fun n => Directive.text (n ++ "\n"))
      ++ [Directive.text ((inv.address.getD default_company.address) ++ "\n"),
          .text ("GSTIN: " ++ (inv.gstin.getD default_company.gstin) ++ "\n"),
          divider,
          .set (some .left) none,
          .text ("Invoice #: " ++ inv.invoice_number ++ "\n")])
      ++ [Directive.text ("Date: " ++ inv.invoice_date ++ "\n")],
      Directive.text ("Customer: " ++ inv.customer_name ++ "\n")
        :: ([divider,
            .text (padRight 20 "Item" ++ padLeft 4 "Qty" ++ padLeft 8 "Price" ++
              padLeft 8 "Total" ++ "\n")]
          ++ inv.items.flatMap itemRows
          ++ [divider,
              .text (padRight 20 "Subtotal:" ++ padLeft 12 (fmt2 inv.subtotal) ++ "\n"),
              .text (padRight 20 "Discount:" ++
                padLeft 12 (fmt2 (inv.discount.getD 0)) ++ "\n"),
              .set none (some true),
              .text (padRight 20 "GRAND TOTAL:" ++ padLeft 12 (fmt2 inv.total) ++ "\n"),
              .set none (some false),
              divider]
          ++ termsLines.map (fun s => Directive.text (s ++ "\n"))
          ++ [divider,
              .set (some .center) none,
              .text (inv.invoice_number ++ "\n"),
              divider,
              .imageBarcode inv.invoice_number,
              .text "\n",
              .imageQR (inv.website_url.getD default_company.website),
              .text "\n",
              .set (some .center) none,
              .text "ENJOY FROM EVERYWHERE\n",
              .text "THANK YOU FOR WATCHING!\n",
              .cut]), ?_, ?_, ?_, ?_⟩
    · simp [renderInvoice, timeSeg]
    · simp [renderInvoice, timeSeg, ht]
    · rw [List.getLast?_concat]
    · rfl

/-- Witness for the amended C9 at the sample invoice and a concrete
non-empty time. -/
theorem c9_time_truthiness_witness :
    renderInvoice { sampleInvoice with invoice_time := some "" } =
      renderInvoice { sampleInvoice with invoice_time := none } ∧
    (∃ pre post,
      renderInvoice { sampleInvoice with invoice_time := none } = pre ++ post ∧
      renderInvoice { sampleInvoice with invoice_time := some "10:30" } =
        pre ++ Directive.text ("Time: " ++ "10:30" ++ "\n") :: post ∧
      pre.getLast? = some (.text ("Date: " ++ sampleInvoice.invoice_date ++ "\n")) ∧
      post.head? =
        some (.text ("Customer: " ++ sampleInvoice.customer_name ++ "\n"))) :=
  ⟨(c9_time_truthiness sampleInvoice).1,
   (c9_time_truthiness sampleInvoice).2 "10:30" (by decide)⟩

end Printer
